import Mathlib

/-!
Shallow embedding of the incremental photo loader in
`src/src/components/PhotoGrid.tsx`.

The component keeps React state `photos`, `page`, `loading`, `error`,
`hasMore`, `initialLoaded` and three effects:
  * a mount effect that fetches page 1 (lines 22-36),
  * a "fetch more" effect keyed on `[page, initialLoaded]` (lines 39-61),
  * an IntersectionObserver effect keyed on `[hasMore, loading]`
    (lines 64-78) that increments `page` when the sentinel intersects.

We model the loader as a transition system.  A state carries the React
state plus the list of outstanding HTTP requests (`inflight`).  Events
are: the sentinel intersecting, and the oldest outstanding request
resolving successfully (with a list of records) or failing (with a
message).  Effect cascades that React runs synchronously after a commit
(the fetch-more effect firing because `page` or `initialLoaded` changed)
are folded into the same transition, matching the single-threaded
event-loop execution model.
-/

namespace PhotoGrid

/-- Modelled from the spec: the record type `Photo` is imported from
`./PhotoCard`, a file absent from the sources; §3 of the spec gives its
fields (`id` unique string, thumbnail and full URLs, width, height,
author).  Only `id` is inspected by the loader logic. -/
structure Photo where
  id : String
  thumbnailUrl : String
  fullUrl : String
  width : Nat
  height : Nat
  author : String
deriving DecidableEq

/-- `const PAGE_SIZE = 20;` (line 7). -/
def PAGE_SIZE : Nat := 20

/-- An outstanding HTTP request: the mount-effect fetch of page 1, or a
fetch issued by the fetch-more effect for a given page number. -/
inductive Request where
  | initial : Request
  | more (page : Nat) : Request
deriving DecidableEq

/-- The loader state: the six `useState` cells of the component plus the
queue of outstanding requests. -/
structure LoaderState where
  photos : List Photo
  page : Nat
  loading : Bool
  error : Option String
  hasMore : Bool
  initialLoaded : Bool
  inflight : List Request
deriving DecidableEq

/-- State right after mount: the `useState` initial values (lines 12-17)
and the page-1 request issued by the mount effect (line 25). -/
def mountState : LoaderState :=
  { photos := [], page := 1, loading := false, error := none,
    hasMore := true, initialLoaded := false, inflight := [Request.initial] }

/-- `err.message || 'Unknown error'` (lines 31, 55): an empty message is
replaced by the fallback text. -/
def errMessage (msg : String) : String :=
  if msg = "" then "Unknown error" else msg

/-- Success branch of the mount effect (lines 28-29, 33): `setPhotos(data)`,
`setHasMore(data.length === PAGE_SIZE)`, `setInitialLoaded(true)`. -/
def applyInitialOk (data : List Photo) (s : LoaderState) : LoaderState :=
  { s with photos := data, hasMore := data.length == PAGE_SIZE,
           initialLoaded := true }

/-- Failure branch of the mount effect (lines 31, 33): `setError(...)`,
`setInitialLoaded(true)`. -/
def applyInitialErr (msg : String) (s : LoaderState) : LoaderState :=
  { s with error := some (errMessage msg), initialLoaded := true }

/-- Start of `fetchMore` (lines 42-45): `setLoading(true)`, `setError(null)`
and issue the request for page `p`. -/
def startFetchMore (p : Nat) (s : LoaderState) : LoaderState :=
  { s with loading := true, error := none,
           inflight := s.inflight ++ [Request.more p] }

/-- The functional update passed to `setPhotos` in `fetchMore`
(lines 48-52): filter the incoming page against the ids already present,
then append. -/
def dedupAppend (prev data : List Photo) : List Photo :=
  prev ++ data.filter (fun photo => !((prev.map Photo.id).contains photo.id))

/-- Success branch of `fetchMore` (lines 48-53, 57). -/
def applyMoreOk (data : List Photo) (s : LoaderState) : LoaderState :=
  { s with photos := dedupAppend s.photos data,
           hasMore := data.length == PAGE_SIZE, loading := false }

/-- Failure branch of `fetchMore` (lines 55, 57). -/
def applyMoreErr (msg : String) (s : LoaderState) : LoaderState :=
  { s with error := some (errMessage msg), loading := false }

/-- The fetch-more effect body (lines 39-61): it runs whenever `page` or
`initialLoaded` changed, returns early when `page === 1 || !initialLoaded`
(line 40), and otherwise starts the fetch for the current `page`. -/
def fetchMoreEffect (s : LoaderState) : LoaderState :=
  if s.page = 1 ∨ s.initialLoaded = false then s else startFetchMore s.page s

/-- The sentinel intersecting.  The observer is registered only while
`hasMore && !loading` (line 65); the callback does `setPage(prev + 1)`
(line 69), after which the fetch-more effect runs because `page` changed. -/
def intersectStep (s : LoaderState) : LoaderState :=
  if s.hasMore = true ∧ s.loading = false then
    fetchMoreEffect { s with page := s.page + 1 }
  else s

/-- External events driving the loader. -/
inductive Event where
  | intersect : Event
  | resolveOk (data : List Photo) : Event
  | resolveErr (msg : String) : Event
deriving DecidableEq

/-- One transition.  A resolution event consumes the oldest outstanding
request; resolving the initial request flips `initialLoaded`, so the
fetch-more effect re-runs right after it (dependency array
`[page, initialLoaded]`, line 61). -/
def step (s : LoaderState) (e : Event) : LoaderState :=
  match e with
  | Event.intersect => intersectStep s
  | Event.resolveOk data =>
      match s.inflight with
      | [] => s
      | Request.initial :: rest =>
          fetchMoreEffect (applyInitialOk data { s with inflight := rest })
      | Request.more _ :: rest =>
          applyMoreOk data { s with inflight := rest }
  | Event.resolveErr msg =>
      match s.inflight with
      | [] => s
      | Request.initial :: rest =>
          fetchMoreEffect (applyInitialErr msg { s with inflight := rest })
      | Request.more _ :: rest =>
          applyMoreErr msg { s with inflight := rest }

/-- Run the loader from a state through a list of events. -/
def run (s : LoaderState) (evs : List Event) : LoaderState :=
  evs.foldl step s

/-- States the loader can actually be in after mounting. -/
def Reachable (s : LoaderState) : Prop :=
  ∃ evs, run mountState evs = s

/-- The inductive invariant of the loader: the page number is positive and
the loader is in one of three modes — idle, initial fetch pending (with no
photos yet), or a fetch-more request pending (with `loading` set and the
error cleared by `setError(null)`). -/
def Inv (s : LoaderState) : Prop :=
  1 ≤ s.page ∧
  ((s.inflight = [] ∧ s.loading = false ∧ s.initialLoaded = true)
   ∨ (s.inflight = [Request.initial] ∧ s.loading = false
      ∧ s.initialLoaded = false ∧ s.photos = [])
   ∨ (∃ p, s.inflight = [Request.more p] ∧ s.loading = true
      ∧ s.initialLoaded = true ∧ s.error = none))

theorem inv_mountState : Inv mountState := by
  refine ⟨le_refl 1, Or.inr (Or.inl ⟨rfl, rfl, rfl, rfl⟩)⟩

theorem inv_step (s : LoaderState) (e : Event) (h : Inv s) : Inv (step s e) := by
  obtain ⟨hpage, hmode⟩ := h
  rcases hmode with ⟨h1, h2, h3⟩ | ⟨h1, h2, h3, h4⟩ | ⟨p, h1, h2, h3, h4⟩ <;>
    cases e <;>
    simp only [step, intersectStep, fetchMoreEffect, startFetchMore, applyInitialOk,
      applyInitialErr, applyMoreOk, applyMoreErr, h1, h2, h3, Inv] <;>
    (try split_ifs) <;>
    simp_all [Inv]

theorem inv_run (evs : List Event) (s : LoaderState) (h : Inv s) :
    Inv (run s evs) := by
  induction evs generalizing s with
  | nil => exact h
  | cons e evs ih => exact ih (step s e) (inv_step s e h)

theorem reachable_inv (s : LoaderState) (h : Reachable s) : Inv s := by
  obtain ⟨evs, rfl⟩ := h
  exact inv_run evs mountState inv_mountState

theorem dedupAppend_id_nodup (prev data : List Photo)
    (hp : (prev.map Photo.id).Nodup) (hd : (data.map Photo.id).Nodup) :
    ((dedupAppend prev data).map Photo.id).Nodup := by
  unfold dedupAppend
  rw [List.map_append]
  refine List.Nodup.append hp (((List.filter_sublist data).map Photo.id).nodup hd) ?_
  intro x hx1 hx2
  obtain ⟨ph, hph, rfl⟩ := List.mem_map.mp hx2
  obtain ⟨-, hpred⟩ := List.mem_filter.mp hph
  rw [Bool.not_eq_true'] at hpred
  have hc : (prev.map Photo.id).contains ph.id = true := List.elem_iff.mpr hx1
  rw [hpred] at hc
  exact Bool.noConfusion hc

theorem step_photos_id_nodup (s : LoaderState) (e : Event)
    (hs : (s.photos.map Photo.id).Nodup)
    (hd : ∀ data, e = Event.resolveOk data → (data.map Photo.id).Nodup) :
    ((step s e).photos.map Photo.id).Nodup := by
  cases e with
  | intersect =>
      simp only [step, intersectStep, fetchMoreEffect, startFetchMore]
      split_ifs <;> simpa using hs
  | resolveOk data =>
      have hdata := hd data rfl
      cases h : s.inflight with
      | nil => simpa [step, h] using hs
      | cons r rest =>
          cases r with
          | initial =>
              simp only [step, h, fetchMoreEffect, startFetchMore, applyInitialOk]
              split_ifs <;> simpa using hdata
          | more p =>
              simp only [step, h, applyMoreOk]
              exact dedupAppend_id_nodup s.photos data hs hdata
  | resolveErr msg =>
      cases h : s.inflight with
      | nil => simpa [step, h] using hs
      | cons r rest =>
          cases r with
          | initial =>
              simp only [step, h, fetchMoreEffect, startFetchMore, applyInitialErr]
              split_ifs <;> simpa using hs
          | more p =>
              simpa [step, h, applyMoreErr] using hs

theorem run_photos_id_nodup (evs : List Event) (s : LoaderState)
    (hs : (s.photos.map Photo.id).Nodup)
    (hd : ∀ data, Event.resolveOk data ∈ evs → (data.map Photo.id).Nodup) :
    (((run s evs).photos.map Photo.id)).Nodup := by
  induction evs generalizing s with
  | nil => exact hs
  | cons e evs ih =>
      refine ih (step s e) ?_ ?_
      · exact step_photos_id_nodup s e hs
          (fun data he => hd data (by simp [he]))
      · exact fun data hmem => hd data (List.mem_cons_of_mem _ hmem)

theorem step_photos_append (s : LoaderState) (e : Event) (h : Inv s) :
    ∃ t, (step s e).photos = s.photos ++ t := by
  cases e with
  | intersect =>
      refine ⟨[], ?_⟩
      simp only [step, intersectStep, fetchMoreEffect, startFetchMore]
      split_ifs <;> simp
  | resolveOk data =>
      cases hfl : s.inflight with
      | nil => exact ⟨[], by simp [step, hfl]⟩
      | cons r rest =>
          cases r with
          | initial =>
              have hphotos : s.photos = [] := by
                obtain ⟨-, hA | hB | ⟨p, hC, -⟩⟩ := h
                · rw [hfl] at hA; exact absurd hA.1 (by simp)
                · exact hB.2.2.2
                · rw [hfl] at hC; exact absurd hC (by simp)
              refine ⟨data, ?_⟩
              simp only [step, hfl, fetchMoreEffect, startFetchMore, applyInitialOk]
              split_ifs <;> simp [hphotos]
          | more p =>
              refine ⟨data.filter
                (fun photo => !((s.photos.map Photo.id).contains photo.id)), ?_⟩
              simp only [step, hfl, applyMoreOk]
              rfl
  | resolveErr msg =>
      refine ⟨[], ?_⟩
      cases hfl : s.inflight with
      | nil => simp [step, hfl]
      | cons r rest =>
          cases r with
          | initial =>
              simp only [step, hfl, fetchMoreEffect, startFetchMore, applyInitialErr]
              split_ifs <;> simp
          | more p => simp [step, hfl, applyMoreErr]

/-- Shared helper: resolving any outstanding request successfully sets
`hasMore` to `data.length === PAGE_SIZE` (lines 29 and 53). -/
theorem step_resolveOk_hasMore (s : LoaderState) (data : List Photo)
    (r : Request) (rest : List Request) (h : s.inflight = r :: rest) :
    (step s (Event.resolveOk data)).hasMore = (data.length == PAGE_SIZE) := by
  cases r with
  | initial =>
      simp only [step, h, fetchMoreEffect, startFetchMore, applyInitialOk]
      split_ifs <;> simp
  | more p =>
      simp [step, h, applyMoreOk]

/-- Shared helper: an intersection never changes `hasMore`. -/
theorem step_intersect_hasMore (s : LoaderState) :
    (step s Event.intersect).hasMore = s.hasMore := by
  simp only [step, intersectStep, fetchMoreEffect, startFetchMore]
  split_ifs <;> simp

/-- Shared helper: a failed fetch never changes `hasMore`. -/
theorem step_resolveErr_hasMore (s : LoaderState) (msg : String) :
    (step s (Event.resolveErr msg)).hasMore = s.hasMore := by
  cases hfl : s.inflight with
  | nil => simp [step, hfl]
  | cons r rest =>
      cases r with
      | initial =>
          simp only [step, hfl, fetchMoreEffect, startFetchMore, applyInitialErr]
          split_ifs <;> simp
      | more p => simp [step, hfl, applyMoreErr]

/-- Sample record with a numeric id, for concrete scenarios. -/
def mkPhoto (i : Nat) : Photo :=
  { id := toString i, thumbnailUrl := "", fullUrl := "",
    width := 0, height := 0, author := "" }

/-- A full page: 20 records with the distinct ids 0..19. -/
def fullPage : List Photo := (List.range 20).map mkPhoto

/-- A short page: 10 records with the distinct ids 0..9. -/
def shortPage : List Photo := (List.range 10).map mkPhoto

/-- A 15-record page whose first 3 ids repeat ids of `fullPage` and whose
other 12 ids (20..31) are fresh. -/
def overlapPage : List Photo :=
  ((List.range 3).map mkPhoto) ++ ((List.range 12).map (fun i => mkPhoto (20 + i)))

/-- A reachable state with the page-2 request outstanding: page 1 resolved
with a full page, then the sentinel intersected once. -/
def pendingMoreState : LoaderState :=
  run mountState [Event.resolveOk fullPage, Event.intersect]

/-- A 21-record page (ids 100..120), longer than the requested page size. -/
def longPage : List Photo := (List.range 21).map (fun i => mkPhoto (100 + i))

/-- C1 counterexample: the claim fails when a single fetched page contains
two records with the same id — the loader filters an incoming page only
against the ids already in `items`, not against the page itself, so a page
`[id 1, id 1]` puts two records with id "1" into `items`. -/
theorem dedup_fails_on_intra_page_duplicate :
    ¬ (((run mountState [Event.resolveOk [mkPhoto 1, mkPhoto 1]]).photos.map
        Photo.id).Nodup) := by
  decide

/-- C1 (amended): provided every successfully fetched page itself contains
no two records with the same id, `items` never contains two records with
the same id; and every transition only appends to the existing list, so
retained records keep the order in which they were first seen. -/
theorem items_nodup_of_unique_pages (evs : List Event)
    (hpages : ∀ data, Event.resolveOk data ∈ evs → (data.map Photo.id).Nodup) :
    (((run mountState evs).photos.map Photo.id).Nodup)
    ∧ ∀ e, ∃ t, (step (run mountState evs) e).photos
        = (run mountState evs).photos ++ t := by
  constructor
  · exact run_photos_id_nodup evs mountState (by simp [mountState]) hpages
  · intro e
    exact step_photos_append _ e (inv_run evs mountState inv_mountState)

theorem items_nodup_of_unique_pages_witness :
    (((run mountState [Event.resolveOk [mkPhoto 1]]).photos.map Photo.id).Nodup)
    ∧ ∀ e, ∃ t, (step (run mountState [Event.resolveOk [mkPhoto 1]]) e).photos
        = (run mountState [Event.resolveOk [mkPhoto 1]]).photos ++ t :=
  items_nodup_of_unique_pages [Event.resolveOk [mkPhoto 1]]
    (by intro data h; simp only [List.mem_singleton, Event.resolveOk.injEq] at h
        subst h; decide)

/-- C8: with page size 20, page 1 resolving with 20 unique records gives
`hasMore = true` and 20 items; an intersection then requests page 2, and
its resolving with 15 records, 3 of which repeat ids from page 1, gives 32
items and `hasMore = false`. -/
theorem scenario_two_pages :
    fullPage.length = 20
    ∧ overlapPage.length = 15
    ∧ (overlapPage.filter
        (fun p => (fullPage.map Photo.id).contains p.id)).length = 3
    ∧ (run mountState [Event.resolveOk fullPage]).hasMore = true
    ∧ (run mountState [Event.resolveOk fullPage]).photos.length = 20
    ∧ (run mountState [Event.resolveOk fullPage, Event.intersect,
        Event.resolveOk overlapPage]).photos.length = 32
    ∧ (run mountState [Event.resolveOk fullPage, Event.intersect,
        Event.resolveOk overlapPage]).hasMore = false := by
  decide

/-- C9: resolving any fetch sets `hasMore` to true exactly when the page
length equals the page size 20 — so a page longer than 20 records also
yields `hasMore = false`, not only a strictly shorter one. -/
theorem hasMore_iff_page_length_eq_20 (s : LoaderState) (data : List Photo)
    (r : Request) (rest : List Request) (h : s.inflight = r :: rest) :
    (step s (Event.resolveOk data)).hasMore = (data.length == PAGE_SIZE) :=
  step_resolveOk_hasMore s data r rest h

theorem hasMore_iff_page_length_eq_20_witness :
    (step pendingMoreState (Event.resolveOk longPage)).hasMore
      = (longPage.length == PAGE_SIZE)
    ∧ (longPage.length == PAGE_SIZE) = false
    ∧ 20 < longPage.length :=
  ⟨hasMore_iff_page_length_eq_20 pendingMoreState longPage
      (Request.more 2) [] (by decide),
   by decide, by decide⟩

/-- C2 counterexample: the sentinel intersects while the initial load is in
flight (`setPage(2)` runs but the fetch-more effect returns early since
`initialLoaded` is false); page 1 then resolves with 10 < 20 records, so
`hasMore` becomes false — but completing the initial load re-runs the
fetch-more effect, which issues the page-2 request without checking
`hasMore`; when that request resolves with a full page, `hasMore` becomes
true again. -/
theorem hasMore_becomes_true_again :
    (run mountState [Event.intersect, Event.resolveOk shortPage]).hasMore = false
    ∧ (run mountState [Event.intersect, Event.resolveOk shortPage]).inflight
        = [Request.more 2]
    ∧ (run mountState [Event.intersect, Event.resolveOk shortPage,
        Event.resolveOk fullPage]).hasMore = true := by
  decide

/-- C2 (amended): a fetched page with fewer than 20 records sets `hasMore`
to false; while `hasMore` is false the observer is not registered, so an
onNearEnd signal changes nothing — in particular it triggers no fetch; and
the only transition that can turn `hasMore` true again is the resolution,
with exactly 20 records, of a request that was already outstanding when
`hasMore` was false (possible only for a page advance recorded during the
initial load). -/
theorem short_page_clears_hasMore (s : LoaderState) (data : List Photo)
    (r : Request) (rest : List Request) (e : Event) :
    (s.inflight = r :: rest → data.length < PAGE_SIZE →
      (step s (Event.resolveOk data)).hasMore = false)
    ∧ (s.hasMore = false → step s Event.intersect = s)
    ∧ (s.hasMore = false → (step s e).hasMore = true →
        ∃ d, e = Event.resolveOk d ∧ d.length = PAGE_SIZE ∧ s.inflight ≠ []) := by
  refine ⟨?_, ?_, ?_⟩
  · intro h hlen
    rw [step_resolveOk_hasMore s data r rest h]
    simp only [beq_eq_false_iff_ne, ne_eq]
    omega
  · intro h
    simp [step, intersectStep, h]
  · intro h htrue
    cases e with
    | intersect =>
        rw [step_intersect_hasMore, h] at htrue
        exact Bool.noConfusion htrue
    | resolveOk d =>
        cases hfl : s.inflight with
        | nil =>
            rw [show step s (Event.resolveOk d) = s by simp [step, hfl], h] at htrue
            exact Bool.noConfusion htrue
        | cons r2 rest2 =>
            rw [step_resolveOk_hasMore s d r2 rest2 hfl] at htrue
            exact ⟨d, rfl, by simpa using htrue, by simp [hfl]⟩
    | resolveErr msg =>
        rw [step_resolveErr_hasMore, h] at htrue
        exact Bool.noConfusion htrue

theorem short_page_clears_hasMore_witness :
    ((step (run mountState [Event.intersect, Event.resolveOk shortPage])
        (Event.resolveOk shortPage)).hasMore = false)
    ∧ (step (run mountState [Event.resolveOk shortPage]) Event.intersect
        = run mountState [Event.resolveOk shortPage])
    ∧ (∃ d, Event.resolveOk fullPage = Event.resolveOk d ∧ d.length = PAGE_SIZE
        ∧ (run mountState [Event.intersect, Event.resolveOk shortPage]).inflight
            ≠ []) :=
  ⟨(short_page_clears_hasMore
      (run mountState [Event.intersect, Event.resolveOk shortPage]) shortPage
      (Request.more 2) [] (Event.resolveOk fullPage)).1 (by decide) (by decide),
   (short_page_clears_hasMore (run mountState [Event.resolveOk shortPage])
      shortPage Request.initial [] (Event.resolveOk fullPage)).2.1 (by decide),
   (short_page_clears_hasMore
      (run mountState [Event.intersect, Event.resolveOk shortPage]) shortPage
      (Request.more 2) [] (Event.resolveOk fullPage)).2.2 (by decide) (by decide)⟩

/-- C3: in every reachable state at most one request is outstanding, and an
onNearEnd signal arriving while a request is outstanding or while `hasMore`
is false issues no additional request. -/
theorem at_most_one_outstanding_request (s : LoaderState) (h : Reachable s) :
    s.inflight.length ≤ 1
    ∧ ((s.inflight ≠ [] ∨ s.hasMore = false) →
        (step s Event.intersect).inflight = s.inflight) := by
  have hinv := reachable_inv s h
  obtain ⟨hpage, hmode⟩ := hinv
  constructor
  · rcases hmode with ⟨h1, -⟩ | ⟨h1, -⟩ | ⟨p, h1, -⟩ <;> simp [h1]
  · intro hcond
    rcases hmode with ⟨h1, h2, h3⟩ | ⟨h1, h2, h3, h4⟩ | ⟨p, h1, h2, h3, h4⟩
    · rcases hcond with hne | hfalse
      · exact absurd h1 hne
      · simp [step, intersectStep, hfalse]
    · simp only [step, intersectStep, fetchMoreEffect, startFetchMore]
      split_ifs <;> simp_all
    · simp [step, intersectStep, h2]

theorem at_most_one_outstanding_request_witness :
    pendingMoreState.inflight.length ≤ 1
    ∧ (step pendingMoreState Event.intersect).inflight
        = pendingMoreState.inflight :=
  ⟨(at_most_one_outstanding_request pendingMoreState
      ⟨[Event.resolveOk fullPage, Event.intersect], rfl⟩).1,
   (at_most_one_outstanding_request pendingMoreState
      ⟨[Event.resolveOk fullPage, Event.intersect], rfl⟩).2
     (Or.inl (by decide))⟩

/-- C4: when the outstanding advance fetch fails, `items` and `hasMore` keep
their pre-call values and `lastError` is a non-empty message — starting the
fetch changed neither `items` nor `hasMore`, no intersection can change them
while the fetch is in flight (the observer is unregistered while `loading`),
and the failure handler touches only `error` and `loading`. -/
theorem fetch_failure_preserves_state (s : LoaderState) (p : Nat) (msg : String)
    (h : s.inflight = [Request.more p]) (hl : s.loading = true) :
    ((step s (Event.resolveErr msg)).photos = s.photos
      ∧ (step s (Event.resolveErr msg)).hasMore = s.hasMore
      ∧ ∃ emsg, (step s (Event.resolveErr msg)).error = some emsg ∧ emsg ≠ "")
    ∧ step s Event.intersect = s
    ∧ ((startFetchMore p s).photos = s.photos
      ∧ (startFetchMore p s).hasMore = s.hasMore) := by
  refine ⟨⟨?_, ?_, ?_⟩, ?_, rfl, rfl⟩
  · simp [step, h, applyMoreErr]
  · simp [step, h, applyMoreErr]
  · refine ⟨errMessage msg, by simp [step, h, applyMoreErr], ?_⟩
    unfold errMessage
    split_ifs <;> simp_all
  · simp [step, intersectStep, hl]

theorem fetch_failure_preserves_state_witness :
    ((step pendingMoreState (Event.resolveErr "Failed to fetch photos")).photos
        = pendingMoreState.photos
      ∧ (step pendingMoreState (Event.resolveErr "Failed to fetch photos")).hasMore
        = pendingMoreState.hasMore
      ∧ ∃ emsg, (step pendingMoreState
            (Event.resolveErr "Failed to fetch photos")).error = some emsg
          ∧ emsg ≠ "")
    ∧ step pendingMoreState Event.intersect = pendingMoreState
    ∧ ((startFetchMore 2 pendingMoreState).photos = pendingMoreState.photos
      ∧ (startFetchMore 2 pendingMoreState).hasMore = pendingMoreState.hasMore) :=
  fetch_failure_preserves_state pendingMoreState 2 "Failed to fetch photos"
    (by decide) (by decide)

/-- C5 counterexample: page 1 loads fully, the page-2 fetch fails (cursor
stays 2, the error is recorded) — but the next intersection requests page 3,
not page 2: the failed page is skipped, not retried. -/
theorem retrigger_requests_next_page :
    (run mountState [Event.resolveOk fullPage, Event.intersect,
        Event.resolveErr "network error"]).page = 2
    ∧ (run mountState [Event.resolveOk fullPage, Event.intersect,
        Event.resolveErr "network error"]).error = some "network error"
    ∧ (step (run mountState [Event.resolveOk fullPage, Event.intersect,
        Event.resolveErr "network error"]) Event.intersect).inflight
        = [Request.more 3] := by
  decide

/-- C5 (amended): a failed advance leaves the cursor unchanged, but a
subsequent onNearEnd() does not retry that cursor: it increments the cursor
and issues the fetch for the next page number. -/
theorem failed_page_skipped_on_retrigger (s : LoaderState) (p : Nat)
    (msg : String) (h : s.inflight = [Request.more p])
    (hil : s.initialLoaded = true) (hp : 1 ≤ s.page) (hm : s.hasMore = true) :
    (step s (Event.resolveErr msg)).page = s.page
    ∧ (step (step s (Event.resolveErr msg)) Event.intersect).page = s.page + 1
    ∧ (step (step s (Event.resolveErr msg)) Event.intersect).inflight
        = [Request.more (s.page + 1)] := by
  have hstep : step s (Event.resolveErr msg)
      = applyMoreErr msg { s with inflight := [] } := by
    simp [step, h, applyMoreErr]
  rw [hstep]
  refine ⟨rfl, ?_⟩
  simp only [step, intersectStep, fetchMoreEffect, startFetchMore, applyMoreErr,
    hm, hil]
  split_ifs <;> simp_all

theorem failed_page_skipped_on_retrigger_witness :
    (step pendingMoreState (Event.resolveErr "network error")).page
        = pendingMoreState.page
    ∧ (step (step pendingMoreState (Event.resolveErr "network error"))
        Event.intersect).page = pendingMoreState.page + 1
    ∧ (step (step pendingMoreState (Event.resolveErr "network error"))
        Event.intersect).inflight = [Request.more (pendingMoreState.page + 1)] :=
  failed_page_skipped_on_retrigger pendingMoreState 2 "network error"
    (by decide) (by decide) (by decide) (by decide)

/-- C7 counterexample: right after mount the initial page-1 request is
outstanding, yet `loading` (the spec's `isFetching`) is false — the mount
effect never calls `setLoading`, so `isFetching` is not toggled around the
initial fetch. -/
theorem initial_inflight_loading_false :
    mountState.inflight = [Request.initial] ∧ mountState.loading = false := by
  decide

/-- C7 (amended): loadInitial() does not toggle `isFetching`: in every
reachable state in which the initial load has not completed, `loading` is
false; and when the page-1 fetch fails at the mount state, `items` stays
empty, `lastError` is a non-empty message, `hasMore` stays true and
`loading` is false. -/
theorem initial_load_does_not_toggle_loading (evs : List Event) (msg : String)
    (h : (run mountState evs).initialLoaded = false) :
    (run mountState evs).loading = false
    ∧ ((step mountState (Event.resolveErr msg)).loading = false
      ∧ (step mountState (Event.resolveErr msg)).photos = []
      ∧ (∃ emsg, (step mountState (Event.resolveErr msg)).error = some emsg
          ∧ emsg ≠ "")
      ∧ (step mountState (Event.resolveErr msg)).hasMore = true) := by
  constructor
  · obtain ⟨-, hmode⟩ := inv_run evs mountState inv_mountState
    rcases hmode with ⟨-, -, h3⟩ | ⟨-, h2, -, -⟩ | ⟨p, -, -, h3, -⟩
    · rw [h] at h3; exact Bool.noConfusion h3
    · exact h2
    · rw [h] at h3; exact Bool.noConfusion h3
  · refine ⟨?_, ?_, ⟨errMessage msg, ?_, ?_⟩, ?_⟩
    · simp [step, mountState, fetchMoreEffect, applyInitialErr]
    · simp [step, mountState, fetchMoreEffect, applyInitialErr]
    · simp [step, mountState, fetchMoreEffect, applyInitialErr]
    · unfold errMessage
      split_ifs <;> simp_all
    · simp [step, mountState, fetchMoreEffect, applyInitialErr]

theorem initial_load_does_not_toggle_loading_witness :
    (run mountState [Event.intersect]).loading = false
    ∧ ((step mountState (Event.resolveErr "Failed to fetch photos")).loading
        = false
      ∧ (step mountState (Event.resolveErr "Failed to fetch photos")).photos = []
      ∧ (∃ emsg, (step mountState
            (Event.resolveErr "Failed to fetch photos")).error = some emsg
          ∧ emsg ≠ "")
      ∧ (step mountState (Event.resolveErr "Failed to fetch photos")).hasMore
        = true) :=
  initial_load_does_not_toggle_loading [Event.intersect]
    "Failed to fetch photos" (by decide)

/-- C10: `fetchMore` sets the error to null before issuing its fetch; the
mount effect's success handler leaves the error untouched and its failure
handler sets it to a message (never to null); and resolving an advance
successfully from a reachable state leaves the error null, since it was
cleared when the fetch started and nothing can set it while the fetch is in
flight. -/
theorem advance_clears_error (s s2 : LoaderState) (p : Nat)
    (rest : List Request) (data : List Photo) (msg : String)
    (h2 : Reachable s2) (hfl : s2.inflight = Request.more p :: rest) :
    (startFetchMore p s).error = none
    ∧ (applyInitialOk data s).error = s.error
    ∧ (applyInitialErr msg s).error ≠ none
    ∧ (step s2 (Event.resolveOk data)).error = none := by
  refine ⟨rfl, rfl, by simp [applyInitialErr], ?_⟩
  obtain ⟨-, hmode⟩ := reachable_inv s2 h2
  rcases hmode with ⟨h1, -⟩ | ⟨h1, -⟩ | ⟨q, h1, -, -, h4⟩
  · rw [hfl] at h1; exact absurd h1 (by simp)
  · rw [hfl] at h1; exact absurd h1 (by simp)
  · simp [step, hfl, applyMoreOk, h4]

theorem advance_clears_error_witness :
    (startFetchMore 2 mountState).error = none
    ∧ (applyInitialOk fullPage mountState).error = mountState.error
    ∧ (applyInitialErr "Failed to fetch photos" mountState).error ≠ none
    ∧ (step pendingMoreState (Event.resolveOk overlapPage)).error = none :=
  advance_clears_error mountState pendingMoreState 2 [] fullPage
    "Failed to fetch photos"
    ⟨[Event.resolveOk fullPage, Event.intersect], rfl⟩ (by decide)

end PhotoGrid
